import Mathlib

/-!
# Verification of the `buildenv` package (go_software_build)

Shallow embedding of the two variants of the `buildenv` Go package
(`src/pkg/buildenv/buildenv.go` and the unnamed variant `src/unnamed/part_000`)
together with proofs of the specification claims about `Get`, `Unpack`,
`Init`, `Install`, `IsInstalled` and `lookPath`.

The filesystem is modelled as a finite association list from absolute paths
to entries (directory or file-with-content).  External processes are modelled
by an oracle `runner : Cmd → FS → Option FS` (`none` = non-zero exit), and
binary resolution on the system PATH (Go's `exec.LookPath`) by an oracle
`sysLook : String → Option String`.  Every embedded method returns the full
post-state (filesystem, trace of spawned commands, the mutated receiver and
package descriptor, and the returned error), because the Go methods mutate
their receiver in place even on error paths.
-/

/-- A filesystem entry: a directory or a file with its byte content. -/
inductive FType where
  | dir
  | file (content : String)
  deriving DecidableEq, Repr

/-- A filesystem: a finite association list from absolute (clean) paths to
entries.  Earlier bindings shadow later ones. -/
abbrev FS := List (String × FType)

/-- Look up the entry stored at path `p`. -/
def lookupFS (fs : FS) (p : String) : Option FType :=
  (fs.find? (fun e => e.1 = p)).map (·.2)

/-- Modelled from the spec: the `path-exists` filesystem utility (`util.PathExists`,
external collaborator, spec section 6): the path names an existing entry. -/
def pathExists (fs : FS) (p : String) : Bool :=
  (lookupFS fs p).isSome

/-- Modelled from the spec: the `is-directory` filesystem utility (`util.IsDir`,
external collaborator, spec section 6). -/
def isDirFS (fs : FS) (p : String) : Bool :=
  lookupFS fs p = some .dir

/-- Modelled from the spec: the `file-exists` filesystem utility (`util.FileExists`,
external collaborator, spec section 6): the path names an existing regular file. -/
def fileExists (fs : FS) (p : String) : Bool :=
  match lookupFS fs p with
  | some (.file _) => true
  | _ => false

/-- Store entry `t` at path `p`, replacing any previous entry. -/
def setEntry (fs : FS) (p : String) (t : FType) : FS :=
  (p, t) :: fs.filter (fun e => e.1 ≠ p)

/-- `pre` is a prefix of `s` (Go's `strings.HasPrefix`). -/
def strStartsWith (s pre : String) : Bool :=
  pre.toList.isPrefixOf s.toList

/-- `suf` is a suffix of `s` (Go's `strings.HasSuffix`). -/
def strEndsWith (s suf : String) : Bool :=
  suf.toList.reverse.isPrefixOf s.toList.reverse

/-- Split a character list around every occurrence of the non-empty separator
`sep` (leftmost-first, non-overlapping).  `cur` holds the characters of the
current field in reverse; `fuel` bounds the recursion (`xs.length` suffices,
each step consumes at least one character). -/
def splitListGo (fuel : Nat) (sep : List Char) (cur : List Char) (xs : List Char) :
    List (List Char) :=
  match fuel with
  | 0 => [cur.reverse]
  | n + 1 =>
    match xs with
    | [] => [cur.reverse]
    | c :: rest =>
      if sep.isPrefixOf xs then
        cur.reverse :: splitListGo n sep [] (xs.drop sep.length)
      else
        splitListGo n sep (c :: cur) rest

/-- Go's `strings.Split`: split `s` around every occurrence of `sep`.  For the
empty separator Go splits into single characters; for a non-empty separator
the result always holds at least one element (the whole string when `sep`
does not occur). -/
def stringsSplit (s sep : String) : List String :=
  if sep = "" then s.toList.map (fun c => String.mk [c])
  else (splitListGo (s.length + 1) sep.toList [] s.toList).map (fun l => String.mk l)

/-- Go's `strings.Replace(s, old, new, -1)`: replace every occurrence of the
non-empty `old` (equivalently, join the `Split` fields with `new`). -/
def replaceAll (s old new : String) : String :=
  String.intercalate new (stringsSplit s old)

/-- Remove duplicates from a list, keeping the first occurrence of each
element; `seen` accumulates the elements already emitted. -/
def dedupAcc (seen : List String) : List String → List String
  | [] => []
  | x :: xs => if x ∈ seen then dedupAcc seen xs else x :: dedupAcc (x :: seen) xs

/-- Go's `filepath.Join` on two components, restricted to the clean paths the
code manipulates (no `.`/`..` segments, no trailing slashes): empty components
are dropped, otherwise the components are joined with a single separator. -/
def filepathJoin (a b : String) : String :=
  if a = "" then b
  else if b = "" then a
  else a ++ "/" ++ b

/-- Go's `filepath.Base` / `path.Base` on clean paths: the last non-empty
path component, `"."` for the empty string, `"/"` for the root. -/
def filepathBase (p : String) : String :=
  if p = "" then "."
  else
    match ((stringsSplit p "/").filter (fun s => s ≠ "")).getLast? with
    | some s => s
    | none => "/"

/-- Go's `filepath.Dir` on clean paths: everything before the last separator
(`"."` when there is none, `"/"` when only the leading separator remains). -/
def filepathDir (p : String) : String :=
  match stringsSplit p "/" with
  | [] => "."
  | [_] => "."
  | parts =>
    let front := parts.dropLast
    if front.all (fun s => s = "") then "/"
    else String.intercalate "/" front

/-- Go's `strings.Replace(s, old, new, 1)`: replace the first occurrence only. -/
def replaceFirst (s old new : String) : String :=
  match stringsSplit s old with
  | [] => s
  | [_] => s
  | p0 :: p1 :: rest => p0 ++ new ++ String.intercalate old (p1 :: rest)

/-- Go's `os.Mkdir`: create a single directory; fails if the path is empty,
the parent is not an existing directory, or the path already exists. -/
def mkdirFS (fs : FS) (p : String) : Option FS :=
  if p = "" then none
  else if ¬ isDirFS fs (filepathDir p) then none
  else if pathExists fs p then none
  else some ((p, .dir) :: fs)

/-- Record directory `q` in the filesystem unless already present. -/
def insertDirIfMissing (fs : FS) (q : String) : FS :=
  if pathExists fs q then fs else (q, .dir) :: fs

/-- One step of `os.MkdirAll`: create all missing ancestors of `q`, then `q`
itself, as directories.  `fuel` bounds the recursion (the path shrinks through
`filepathDir` until it reaches `"/"` or `"."`, which always exist on a real
filesystem; the model records them on first use so that `MkdirAll`'s
postcondition — the target exists — holds unconditionally). -/
def mkdirAllGo (fuel : Nat) (fs : FS) (q : String) : FS :=
  match fuel with
  | 0 => fs
  | n + 1 =>
    if q = "" then fs
    else if q = "/" ∨ q = "." then insertDirIfMissing fs q
    else insertDirIfMissing (mkdirAllGo n fs (filepathDir q)) q

/-- Go's `os.MkdirAll`: create the directory and any missing ancestors.
Fails on the empty path (as `os.Stat("")`/`os.MkdirAll("")` do). -/
def mkdirAll (fs : FS) (p : String) : Option FS :=
  if p = "" then none
  else some (mkdirAllGo (p.length + 1) fs p)

/-- Go's `os.Remove`: delete the entry at `p`; fails if it does not exist. -/
def removeFS (fs : FS) (p : String) : Option FS :=
  if pathExists fs p then some (fs.filter (fun e => e.1 ≠ p)) else none

/-- Modelled from the spec: the `recursive copy` / file-copy utility
(`util.CopyFile`, external collaborator, spec section 6): reads the source
file and creates the destination, failing if the source is not a regular file
or the destination's parent directory does not exist. -/
def copyFile (fs : FS) (src dst : String) : Option FS :=
  match lookupFS fs src with
  | some (.file c) =>
    if isDirFS fs (filepathDir dst) then some (setEntry fs dst (.file c))
    else none
  | _ => none

/-- The immediate children of directory `d`: names `n` such that `d ++ "/" ++ n`
is an entry and `n` has no separator.  Models Go's `ioutil.ReadDir` listing
(deduplicated because an `FS` used as a filesystem has unique keys; ReadDir's
by-name sorting is not modelled, no verified property depends on the order). -/
def childNames (fs : FS) (d : String) : List String :=
  dedupAcc [] ((fs.map (·.1)).filterMap (fun p =>
    if strStartsWith p (d ++ "/") then
      let rest := p.drop (d.length + 1)
      if rest ≠ "" ∧ ¬ rest.toList.contains '/' then some rest else none
    else none))

/-- The result of the URL classifier. -/
inductive URLType where
  | FileURL
  | HttpURL
  | GitURL
  | Unknown
  deriving DecidableEq, Repr

/-- Modelled from the spec: the URL classifier (`util.DetectURLType`, external
collaborator, spec sections 4.2 and 6): `file://` scheme first, then the git
fallback (URL ends in `.git`), then the `http(s)` scheme, else unclassified.
The git check precedes the http check so that the spec's git scenario
(`https://example.com/org/bar.git` is handled by the git strategy, section 8)
holds. -/
def DetectURLType (url : String) : URLType :=
  if strStartsWith url "file://" then .FileURL
  else if strEndsWith url ".git" then .GitURL
  else if strStartsWith url "http" then .HttpURL
  else .Unknown

/-- Modelled from the spec: the archive-format detector
(`util.DetectTarballFormat`, external collaborator, spec section 6), keyed on
the file name's extension; `""` means no supported format detected. -/
def DetectTarballFormat (path : String) : String :=
  if strEndsWith path ".tar.bz2" then "bz2"
  else if strEndsWith path ".tar.gz" then "gz"
  else if strEndsWith path ".tgz" then "tgz"
  else if strEndsWith path ".tar" then "tar"
  else ""

/-- Modelled from the spec: the format-to-extraction-argument mapping
(`util.GetTarArgs`, external collaborator, spec section 6); `""` means the
format has no known extraction arguments. -/
def GetTarArgs (format : String) : String :=
  if format = "bz2" then "-xjf"
  else if format = "gz" then "-xzf"
  else if format = "tgz" then "-xzf"
  else if format = "tar" then "-xf"
  else ""

/-- The package descriptor (`app.Info`): name, source URL, cached tarball
name, install command. -/
structure AppInfo where
  Name : String
  URL : String
  Tarball : String
  InstallCmd : String
  deriving DecidableEq, Repr

/-- The build environment (`buildenv.Info`): the directory triple, the current
source locations, and the environment list for child processes. -/
structure Info where
  SrcPath : String
  SrcDir : String
  ScratchDir : String
  InstallDir : String
  BuildDir : String
  Env : List String
  deriving DecidableEq, Repr

/-- An external command spawned by the package: binary, arguments, working
directory. -/
structure Cmd where
  bin : String
  args : List String
  dir : String
  deriving DecidableEq, Repr

/-- Post-state of an embedded method that takes the environment and a package
descriptor: filesystem, trace of spawned commands (in order), the mutated
receiver and descriptor, and the returned error (`none` = `nil`). -/
structure Outcome where
  fs : FS
  trace : List Cmd
  env : Info
  pkg : AppInfo
  error : Option String
  deriving DecidableEq, Repr

/-- Post-state of an embedded method that only takes the environment. -/
structure EnvOutcome where
  fs : FS
  trace : List Cmd
  env : Info
  error : Option String
  deriving DecidableEq, Repr

/-! ## Methods shared verbatim by both variants -/

/-- Loop body of `lookPath`: iterate over the `Env` entries; for an entry whose
first `=`-component is `"PATH"`, search its `:`-separated directories for the
binary.  Returns `none` where the Go code reads `envEntry[1]` out of bounds
(a runtime panic), which happens exactly when the entry equals `"PATH"` with
no `=` separator. -/
def lookPathLoop (fs : FS) (entries : List String) (bin : String) : Option String :=
  match entries with
  | [] => some bin
  | e :: rest =>
    match stringsSplit e "=" with
    | [] => none
    | k :: comps =>
      if k = "PATH" then
        match comps with
        | [] => none
        | v :: _ =>
          let tokens := stringsSplit v ":"
          match tokens.find? (fun t => fileExists fs (filepathJoin t bin)) with
          | some t => some (filepathJoin t bin)
          | none => lookPathLoop fs rest bin
      else lookPathLoop fs rest bin

/-- Embedding of the `lookPath` method (identical in `src/pkg/buildenv/buildenv.go`
lines 342-357 and `src/unnamed/part_000` lines 391-406): resolve a binary by
searching the directories of the `PATH` entry of `Env`, falling back to the
literal token. -/
def lookPath (fs : FS) (env : Info) (bin : String) : Option String :=
  lookPathLoop fs env.Env bin

/-- Embedding of the `Install` method (identical in both variants;
`src/pkg/buildenv/buildenv.go` lines 360-383, `src/unnamed/part_000` lines
409-432).  Returns `none` when the Go code would panic (inside `lookPath`). -/
def Install (runner : Cmd → FS → Option FS) (fs : FS) (env : Info) (p : AppInfo) :
    Option Outcome :=
  if p.InstallCmd = "" then some ⟨fs, [], env, p, none⟩
  else
    match stringsSplit p.InstallCmd " " with
    | [] => none
    | b :: rest =>
      match lookPath fs env b with
      | none => none
      | some binPath =>
        let c : Cmd := ⟨binPath, rest, env.SrcDir⟩
        match runner c fs with
        | none => some ⟨fs, [c], env, p, some ("failed to install " ++ p.Name)⟩
        | some fs1 => some ⟨fs1, [c], env, p, none⟩

/-- Embedding of the `IsInstalled` method (identical in both variants;
`src/pkg/buildenv/buildenv.go` lines 307-328, `src/unnamed/part_000` lines
356-377).  The method assigns no receiver field, so the embedding returns the
receiver unchanged together with the boolean result. -/
def IsInstalled (fs : FS) (env : Info) (p : AppInfo) : Info × Bool :=
  match DetectURLType p.URL with
  | .FileURL =>
    let filename := filepathBase p.URL
    (env, fileExists fs (filepathJoin env.BuildDir filename)
          || fileExists fs (filepathJoin env.InstallDir filename))
  | .HttpURL =>
    let filename := filepathBase p.URL
    (env, fileExists fs (filepathJoin env.BuildDir filename))
  | .GitURL =>
    let dirname := replaceAll (filepathBase p.URL) ".git" ""
    (env, pathExists fs (filepathJoin env.BuildDir dirname))
  | .Unknown => (env, false)

/-- One conditional directory creation of `Init`: create `d` with `os.MkdirAll`
unless it already exists. -/
def initStep (fs : FS) (d : String) (msg : String) : Except String FS :=
  if ¬ pathExists fs d then
    match mkdirAll fs d with
    | none => .error (msg ++ d)
    | some fs1 => .ok fs1
  else .ok fs

/-- Embedding of the `Init` method (identical in both variants;
`src/pkg/buildenv/buildenv.go` lines 414-434, `src/unnamed/part_000` lines
463-483): ensure `ScratchDir`, `BuildDir`, `InstallDir` exist, creating each
missing one with `MkdirAll`.  (The source's error message for the install
directory also says "build directory"; messages are kept as in the source.) -/
def Init (fs : FS) (env : Info) : EnvOutcome :=
  match initStep fs env.ScratchDir "failed to create scratch directory " with
  | .error m => ⟨fs, [], env, some m⟩
  | .ok fs1 =>
    match initStep fs1 env.BuildDir "failed to create build directory " with
    | .error m => ⟨fs1, [], env, some m⟩
    | .ok fs2 =>
      match initStep fs2 env.InstallDir "failed to create build directory " with
      | .error m => ⟨fs2, [], env, some m⟩
      | .ok fs3 => ⟨fs3, [], env, none⟩

/-! ## The `src/unnamed/part_000` variant -/

namespace part000

/-- Embedding of `copyTarball` from `src/unnamed/part_000` (lines 172-193):
default `Tarball` to the URL's base name, copy the local file (the URL minus
its 7-byte `file://` prefix) to `BuildDir/Name/Tarball`, set `SrcPath` to the
destination. -/
def copyTarball (fs : FS) (env : Info) (p : AppInfo) : Outcome :=
  if p.URL = "" then ⟨fs, [], env, p, some "invalid copyTarball() parameter(s)"⟩
  else
    let p := if p.Tarball = "" then { p with Tarball := filepathBase p.URL } else p
    let targetTarballPath := filepathJoin (filepathJoin env.BuildDir p.Name) p.Tarball
    match copyFile fs (p.URL.drop 7) targetTarballPath with
    | none =>
      ⟨fs, [], env, p, some ("cannot copy file " ++ p.URL ++ " to " ++ targetTarballPath)⟩
    | some fs1 => ⟨fs1, [], { env with SrcPath := targetTarballPath }, p, none⟩

/-- Embedding of `gitCheckout` from `src/unnamed/part_000` (lines 195-245):
strip `.git` from the URL's base name, ensure `BuildDir/Name` exists, then
`pull` from an existing checkout or `clone` into the target directory; on
success set `SrcPath` and `SrcDir` to the checkout path. -/
def gitCheckout (runner : Cmd → FS → Option FS) (sysLook : String → Option String)
    (fs : FS) (env : Info) (p : AppInfo) : Outcome :=
  match sysLook "git" with
  | none => ⟨fs, [], env, p, some "failed to find git"⟩
  | some gitBin =>
    let repoName := replaceFirst (filepathBase p.URL) ".git" ""
    let targetDir := filepathJoin env.BuildDir p.Name
    let mfs : Option FS :=
      if ¬ pathExists fs targetDir then mkdirFS fs targetDir else some fs
    match mfs with
    | none => ⟨fs, [], env, p, some ("failed to create " ++ targetDir)⟩
    | some fs1 =>
      let checkoutPath := filepathJoin targetDir repoName
      if pathExists fs1 checkoutPath then
        let c : Cmd := ⟨gitBin, ["pull"], checkoutPath⟩
        match runner c fs1 with
        | none => ⟨fs1, [c], env, p, some "command failed"⟩
        | some fs2 =>
          ⟨fs2, [c], { env with SrcPath := checkoutPath, SrcDir := checkoutPath }, p, none⟩
      else
        let c : Cmd := ⟨gitBin, ["clone", p.URL], targetDir⟩
        match runner c fs1 with
        | none => ⟨fs1, [c], env, p, some "command failed"⟩
        | some fs2 =>
          ⟨fs2, [c], { env with SrcPath := checkoutPath, SrcDir := checkoutPath }, p, none⟩

/-- Embedding of `download` from `src/unnamed/part_000` (lines 312-353): set
`SrcDir` to `BuildDir/Name`, create that directory if missing, and skip the
fetch when the target file already exists, otherwise run the download tool
(`wget`) from `SrcDir`; finally set `Tarball` and `SrcPath` to the target
file. -/
def download (runner : Cmd → FS → Option FS) (sysLook : String → Option String)
    (fs : FS) (env : Info) (p : AppInfo) : Outcome :=
  if p.URL = "" ∨ env.BuildDir = "" then
    ⟨fs, [], env, p, some "invalid download() parameter(s)"⟩
  else
    let env := { env with SrcDir := filepathJoin env.BuildDir p.Name }
    let mfs : Option FS :=
      if ¬ pathExists fs env.SrcDir then mkdirFS fs env.SrcDir else some fs
    match mfs with
    | none => ⟨fs, [], env, p, some ("failed to create " ++ env.SrcDir)⟩
    | some fs1 =>
      let targetFile := filepathJoin env.SrcDir (filepathBase p.URL)
      if fileExists fs1 targetFile then
        ⟨fs1, [], { env with SrcPath := targetFile },
          { p with Tarball := filepathBase targetFile }, none⟩
      else
        match sysLook "wget" with
        | none => ⟨fs1, [], env, p, some "cannot find wget"⟩
        | some binPath =>
          let c : Cmd := ⟨binPath, [p.URL], env.SrcDir⟩
          match runner c fs1 with
          | none => ⟨fs1, [c], env, p, some "command failed"⟩
          | some fs2 =>
            ⟨fs2, [c], { env with SrcPath := targetFile },
              { p with Tarball := filepathBase targetFile }, none⟩

/-- Embedding of `Get` from `src/unnamed/part_000` (lines 248-310): classify
the URL and dispatch.  For a `file://` URL naming a directory, recursively
copy it with `cp -rf` into `BuildDir/Name` and set `SrcPath = SrcDir` to the
copy; for a `file://` URL naming a regular file, `copyTarball`; for `http(s)`,
`download`; for git, `gitCheckout`; otherwise fail before touching anything. -/
def Get (runner : Cmd → FS → Option FS) (sysLook : String → Option String)
    (fs : FS) (env : Info) (p : AppInfo) : Outcome :=
  if p.URL = "" then ⟨fs, [], env, p, some "invalid Get() parameter(s)"⟩
  else
    match DetectURLType p.URL with
    | .Unknown => ⟨fs, [], env, p, some ("impossible to detect type from URL " ++ p.URL)⟩
    | .FileURL =>
      let localPath := p.URL.drop 7
      if ¬ isDirFS fs localPath then
        let o := copyTarball fs env p
        match o.error with
        | some m => { o with error := some ("impossible to copy the tarball: " ++ m) }
        | none => o
      else
        let targetDir := filepathJoin env.BuildDir p.Name
        let mfs : Option FS :=
          if ¬ pathExists fs targetDir then mkdirAll fs targetDir else some fs
        match mfs with
        | none => ⟨fs, [], env, p, some ("failed to create " ++ targetDir)⟩
        | some fs1 =>
          match sysLook "cp" with
          | none => ⟨fs1, [], env, p, some "cp command not available"⟩
          | some cpBin =>
            let c : Cmd := ⟨cpBin, ["-rf", localPath, targetDir], ""⟩
            match runner c fs1 with
            | none =>
              ⟨fs1, [c], env, p, some ("unable to copy " ++ localPath ++ " into " ++ targetDir)⟩
            | some fs2 =>
              let sp := filepathJoin targetDir (filepathBase p.URL)
              ⟨fs2, [c], { env with SrcPath := sp, SrcDir := sp }, p, none⟩
    | .HttpURL =>
      let o := download runner sysLook fs env p
      match o.error with
      | some m => { o with error := some ("impossible to download " ++ p.Name ++ ": " ++ m) }
      | none => o
    | .GitURL =>
      let o := gitCheckout runner sysLook fs env p
      match o.error with
      | some m =>
        { o with error := some ("impossible to get Git repository " ++ p.URL ++ ": " ++ m) }
      | none => o

/-- Embedding of `Unpack` from `src/unnamed/part_000` (lines 58-129): no-op on
a directory `SrcPath`; `SrcDir := BuildDir` when no archive format is
detected; otherwise run `tar` from `SrcDir`, keep the archive, and expect the
listing of `SrcDir` to hold exactly two entries (the archive plus the new
directory), picking the first entry that differs from the archive's base name
as the new `SrcDir`. -/
def Unpack (runner : Cmd → FS → Option FS) (sysLook : String → Option String)
    (fs : FS) (env : Info) : EnvOutcome :=
  if env.SrcPath = "" ∨ env.BuildDir = "" then ⟨fs, [], env, some "invalid parameter(s)"⟩
  else if isDirFS fs env.SrcPath then ⟨fs, [], env, none⟩
  else
    let format := DetectTarballFormat env.SrcPath
    if format = "" then ⟨fs, [], { env with SrcDir := env.BuildDir }, none⟩
    else
      match sysLook "tar" with
      | none => ⟨fs, [], env, some "tar is not available"⟩
      | some tarPath =>
        let tarArg := GetTarArgs format
        if tarArg = "" then ⟨fs, [], env, some ("unsupported format: " ++ format)⟩
        else
          let c : Cmd := ⟨tarPath, [tarArg, env.SrcPath], env.SrcDir⟩
          match runner c fs with
          | none => ⟨fs, [c], env, some "command failed"⟩
          | some fs1 =>
            let entries := childNames fs1 env.SrcDir
            if entries.length ≠ 2 then
              ⟨fs1, [c], env,
                some ("inconsistent temporary " ++ env.SrcDir ++ " directory")⟩
            else
              match entries.find? (fun e => e ≠ filepathBase env.SrcPath) with
              | some e => ⟨fs1, [c], { env with SrcDir := filepathJoin env.SrcDir e }, none⟩
              | none => ⟨fs1, [c], env, none⟩

end part000

/-! ## The `src/pkg/buildenv/buildenv.go` variant (where it differs) -/

namespace buildenv

/-- Embedding of `Unpack` from `src/pkg/buildenv/buildenv.go` (lines 52-116):
no-op on a directory `SrcPath`; `SrcDir := BuildDir` when no archive format is
detected; otherwise run `tar` from `BuildDir`, delete the archive, and expect
the listing of `BuildDir` to hold exactly one entry (the new directory), which
becomes `SrcDir`. -/
def Unpack (runner : Cmd → FS → Option FS) (sysLook : String → Option String)
    (fs : FS) (env : Info) : EnvOutcome :=
  if env.SrcPath = "" ∨ env.BuildDir = "" then ⟨fs, [], env, some "invalid parameter(s)"⟩
  else if isDirFS fs env.SrcPath then ⟨fs, [], env, none⟩
  else
    let format := DetectTarballFormat env.SrcPath
    if format = "" then ⟨fs, [], { env with SrcDir := env.BuildDir }, none⟩
    else
      match sysLook "tar" with
      | none => ⟨fs, [], env, some "tar is not available"⟩
      | some tarPath =>
        let tarArg := GetTarArgs format
        if tarArg = "" then ⟨fs, [], env, some ("unsupported format: " ++ format)⟩
        else
          let c : Cmd := ⟨tarPath, [tarArg, env.SrcPath], env.BuildDir⟩
          match runner c fs with
          | none => ⟨fs, [c], env, some "command failed"⟩
          | some fs1 =>
            match removeFS fs1 env.SrcPath with
            | none => ⟨fs1, [c], env, some ("failed to delete " ++ env.SrcPath)⟩
            | some fs2 =>
              match childNames fs2 env.BuildDir with
              | [e] => ⟨fs2, [c], { env with SrcDir := filepathJoin env.BuildDir e }, none⟩
              | _ =>
                ⟨fs2, [c], env,
                  some ("inconsistent temporary " ++ env.BuildDir ++ " directory")⟩

end buildenv

/-! ## General lemmas about the model -/

/-- Splitting a character list around a separator always yields at least one
field. -/
theorem splitListGo_ne_nil (fuel : Nat) (sep cur xs : List Char) :
    splitListGo fuel sep cur xs ≠ [] := by
  induction fuel generalizing cur xs with
  | zero => simp [splitListGo]
  | succ n ih =>
    cases xs with
    | nil => simp [splitListGo]
    | cons c rest =>
      simp only [splitListGo]
      split
      · simp
      · exact ih _ _

/-- Go's `strings.Split` with a non-empty separator never returns an empty
slice. -/
theorem stringsSplit_ne_nil (s sep : String) (h : sep ≠ "") : stringsSplit s sep ≠ [] := by
  simp only [stringsSplit, if_neg h]
  simp [splitListGo_ne_nil]

/-- A path exists exactly when some filesystem entry is keyed by it. -/
theorem pathExists_iff (fs : FS) (p : String) :
    pathExists fs p = true ↔ ∃ e ∈ fs, e.1 = p := by
  simp [pathExists, lookupFS, List.find?_isSome]

/-- Adding an entry preserves the existence of every path. -/
theorem pathExists_cons_of (a : String) (t : FType) (fs : FS) (p : String)
    (h : pathExists fs p = true) : pathExists ((a, t) :: fs) p = true := by
  rw [pathExists_iff] at h ⊢
  obtain ⟨e, he, hp⟩ := h
  exact ⟨e, List.mem_cons_of_mem _ he, hp⟩

/-- After `insertDirIfMissing`, the directory exists. -/
theorem insertDirIfMissing_self (fs : FS) (q : String) :
    pathExists (insertDirIfMissing fs q) q = true := by
  unfold insertDirIfMissing
  split
  · assumption
  · rw [pathExists_iff]
    exact ⟨(q, .dir), List.mem_cons_self _ _, rfl⟩

/-- `insertDirIfMissing` preserves the existence of every path. -/
theorem insertDirIfMissing_mono (fs : FS) (q p : String) (h : pathExists fs p = true) :
    pathExists (insertDirIfMissing fs q) p = true := by
  unfold insertDirIfMissing
  split
  · exact h
  · exact pathExists_cons_of _ _ _ _ h

/-- `mkdirAllGo` preserves the existence of every path. -/
theorem mkdirAllGo_mono (n : Nat) (fs : FS) (q p : String) (h : pathExists fs p = true) :
    pathExists (mkdirAllGo n fs q) p = true := by
  induction n generalizing fs q with
  | zero => simpa [mkdirAllGo] using h
  | succ m ih =>
    simp only [mkdirAllGo]
    split
    · exact h
    · split
      · exact insertDirIfMissing_mono _ _ _ h
      · exact insertDirIfMissing_mono _ _ _ (ih fs (filepathDir q) h)

/-- With positive fuel, `mkdirAllGo` makes its non-empty target exist. -/
theorem mkdirAllGo_self (n : Nat) (fs : FS) (q : String) (hq : q ≠ "") :
    pathExists (mkdirAllGo (n + 1) fs q) q = true := by
  simp only [mkdirAllGo, if_neg hq]
  split
  · exact insertDirIfMissing_self _ _
  · exact insertDirIfMissing_self _ _

/-- A successful `MkdirAll` makes the target exist and preserves every
existing path. -/
theorem mkdirAll_some (fs fs1 : FS) (p : String) (h : mkdirAll fs p = some fs1) :
    pathExists fs1 p = true ∧ ∀ q, pathExists fs q = true → pathExists fs1 q = true := by
  unfold mkdirAll at h
  by_cases hp : p = ""
  · simp [hp] at h
  · rw [if_neg hp] at h
    injection h with h
    subst h
    exact ⟨mkdirAllGo_self _ _ _ hp, fun q hq => mkdirAllGo_mono _ _ _ _ hq⟩

/-- A successful `Init` step makes its directory exist and preserves every
existing path. -/
theorem initStep_ok (fs fs1 : FS) (d msg : String) (h : initStep fs d msg = .ok fs1) :
    pathExists fs1 d = true ∧ ∀ q, pathExists fs q = true → pathExists fs1 q = true := by
  unfold initStep at h
  by_cases he : pathExists fs d = true
  · rw [if_neg (by simp [he])] at h
    injection h with h
    subst h
    exact ⟨he, fun _ h => h⟩
  · rw [if_pos (by simpa using he)] at h
    cases hmk : mkdirAll fs d with
    | none => rw [hmk] at h; exact absurd h (by simp)
    | some fs2 =>
      rw [hmk] at h
      injection h with h
      subst h
      exact mkdirAll_some _ _ _ hmk

/-- An `Init` step on an already existing directory is an identity. -/
theorem initStep_exists_ok (fs : FS) (d msg : String) (he : pathExists fs d = true) :
    initStep fs d msg = .ok fs := by
  simp [initStep, he]

/-- Iterating the `lookPath` loop over well-formed entries (every entry whose
first `=`-component is `PATH` has a second component) always yields a
result. -/
theorem lookPathLoop_isSome (fs : FS) (bin : String) (entries : List String)
    (h : ∀ e ∈ entries,
      (stringsSplit e "=").head? = some "PATH" → 2 ≤ (stringsSplit e "=").length) :
    (lookPathLoop fs entries bin).isSome = true := by
  induction entries with
  | nil => simp [lookPathLoop]
  | cons e rest ih =>
    have hrest : ∀ x ∈ rest,
        (stringsSplit x "=").head? = some "PATH" → 2 ≤ (stringsSplit x "=").length :=
      fun x hx => h x (List.mem_cons_of_mem _ hx)
    unfold lookPathLoop
    cases hsp : stringsSplit e "=" with
    | nil => exact absurd hsp (stringsSplit_ne_nil e "=" (by decide))
    | cons k comps =>
      by_cases hk : k = "PATH"
      · subst hk
        cases comps with
        | nil =>
          have h2 := h e (List.mem_cons_self _ _) (by rw [hsp]; rfl)
          rw [hsp] at h2
          simp at h2
        | cons v vs =>
          simp only [if_pos rfl]
          cases hf : (stringsSplit v ":").find?
              (fun t => fileExists fs (filepathJoin t bin)) with
          | none => simpa [hf] using ih hrest
          | some t => simp [hf]
      · simp only [if_neg hk]
        exact ih hrest

/-! ## The claims -/

/-- Claim C1: for a package with an HTTP(S) URL whose target file already
exists in the package-named subdirectory of `BuildDir`, `Get` spawns no
download tool, leaves the filesystem (hence the existing file) unchanged, yet
still sets `Tarball` and `SrcPath` to that existing file; re-running `Get`
produces the identical outcome, so the HTTP strategy is idempotent on the
acquired file. -/
theorem part000_get_http_skip_idempotent (runner : Cmd → FS → Option FS)
    (sysLook : String → Option String) (fs : FS)
    (sp sd scr inst bd : String) (ev : List String) (name url tb ic : String)
    (hurl : DetectURLType url = .HttpURL) (hbd : bd ≠ "")
    (hsub : pathExists fs (filepathJoin bd name) = true)
    (hfile : fileExists fs (filepathJoin (filepathJoin bd name) (filepathBase url)) = true) :
    part000.Get runner sysLook fs ⟨sp, sd, scr, inst, bd, ev⟩ ⟨name, url, tb, ic⟩ =
      ⟨fs, [],
       ⟨filepathJoin (filepathJoin bd name) (filepathBase url), filepathJoin bd name,
        scr, inst, bd, ev⟩,
       ⟨name, url, filepathBase (filepathJoin (filepathJoin bd name) (filepathBase url)), ic⟩,
       none⟩ ∧
      part000.Get runner sysLook fs
        ⟨filepathJoin (filepathJoin bd name) (filepathBase url), filepathJoin bd name,
         scr, inst, bd, ev⟩
        ⟨name, url, filepathBase (filepathJoin (filepathJoin bd name) (filepathBase url)), ic⟩ =
      ⟨fs, [],
       ⟨filepathJoin (filepathJoin bd name) (filepathBase url), filepathJoin bd name,
        scr, inst, bd, ev⟩,
       ⟨name, url, filepathBase (filepathJoin (filepathJoin bd name) (filepathBase url)), ic⟩,
       none⟩ := by
  have hne : url ≠ "" := by
    intro h0
    rw [h0] at hurl
    exact absurd hurl (by decide)
  constructor
  · simp [part000.Get, part000.download, hurl, hne, hbd, hsub, hfile]
  · simp [part000.Get, part000.download, hurl, hne, hbd, hsub, hfile]

/-- Witness for C1 at a concrete filesystem holding the already-downloaded
tarball. -/
theorem part000_get_http_skip_idempotent_witness :
    part000.Get (fun _ _ => none) (fun _ => none)
        [("/scratch/build/zlib", .dir), ("/scratch/build/zlib/zlib.tar.gz", .file "Z"),
         ("/scratch/build", .dir)]
        ⟨"", "", "/scr", "/inst", "/scratch/build", []⟩
        ⟨"zlib", "http://zlib.net/zlib.tar.gz", "", ""⟩ =
      ⟨[("/scratch/build/zlib", .dir), ("/scratch/build/zlib/zlib.tar.gz", .file "Z"),
        ("/scratch/build", .dir)], [],
       ⟨filepathJoin (filepathJoin "/scratch/build" "zlib")
          (filepathBase "http://zlib.net/zlib.tar.gz"),
        filepathJoin "/scratch/build" "zlib", "/scr", "/inst", "/scratch/build", []⟩,
       ⟨"zlib", "http://zlib.net/zlib.tar.gz",
        filepathBase (filepathJoin (filepathJoin "/scratch/build" "zlib")
          (filepathBase "http://zlib.net/zlib.tar.gz")), ""⟩, none⟩ ∧
      part000.Get (fun _ _ => none) (fun _ => none)
        [("/scratch/build/zlib", .dir), ("/scratch/build/zlib/zlib.tar.gz", .file "Z"),
         ("/scratch/build", .dir)]
        ⟨filepathJoin (filepathJoin "/scratch/build" "zlib")
           (filepathBase "http://zlib.net/zlib.tar.gz"),
         filepathJoin "/scratch/build" "zlib", "/scr", "/inst", "/scratch/build", []⟩
        ⟨"zlib", "http://zlib.net/zlib.tar.gz",
         filepathBase (filepathJoin (filepathJoin "/scratch/build" "zlib")
           (filepathBase "http://zlib.net/zlib.tar.gz")), ""⟩ =
      ⟨[("/scratch/build/zlib", .dir), ("/scratch/build/zlib/zlib.tar.gz", .file "Z"),
        ("/scratch/build", .dir)], [],
       ⟨filepathJoin (filepathJoin "/scratch/build" "zlib")
          (filepathBase "http://zlib.net/zlib.tar.gz"),
        filepathJoin "/scratch/build" "zlib", "/scr", "/inst", "/scratch/build", []⟩,
       ⟨"zlib", "http://zlib.net/zlib.tar.gz",
        filepathBase (filepathJoin (filepathJoin "/scratch/build" "zlib")
          (filepathBase "http://zlib.net/zlib.tar.gz")), ""⟩, none⟩ :=
  part000_get_http_skip_idempotent (fun _ _ => none) (fun _ => none)
    [("/scratch/build/zlib", .dir), ("/scratch/build/zlib/zlib.tar.gz", .file "Z"),
     ("/scratch/build", .dir)]
    "" "" "/scr" "/inst" "/scratch/build" [] "zlib" "http://zlib.net/zlib.tar.gz" "" ""
    (by decide) (by decide) (by decide) (by decide)

/-- Claim C2: for Name `foo`, URL `file:///tmp/pkgs/foo-1.0.tar.gz` naming a
regular file, empty `Tarball` and `BuildDir = /scratch/build`, a successful
`Get` copies the file, sets `SrcPath = /scratch/build/foo/foo-1.0.tar.gz`,
defaults `Tarball` to `foo-1.0.tar.gz`, and leaves `SrcDir` untouched. -/
theorem part000_get_file_tarball_scenario (runner : Cmd → FS → Option FS)
    (sysLook : String → Option String) (fs : FS)
    (sp sd scr inst : String) (ev : List String) (ic c : String)
    (hsrc : lookupFS fs "/tmp/pkgs/foo-1.0.tar.gz" = some (.file c))
    (hdst : isDirFS fs "/scratch/build/foo" = true) :
    part000.Get runner sysLook fs ⟨sp, sd, scr, inst, "/scratch/build", ev⟩
        ⟨"foo", "file:///tmp/pkgs/foo-1.0.tar.gz", "", ic⟩ =
      ⟨setEntry fs "/scratch/build/foo/foo-1.0.tar.gz" (.file c), [],
       ⟨"/scratch/build/foo/foo-1.0.tar.gz", sd, scr, inst, "/scratch/build", ev⟩,
       ⟨"foo", "file:///tmp/pkgs/foo-1.0.tar.gz", "foo-1.0.tar.gz", ic⟩, none⟩ := by
  have hdet : DetectURLType "file:///tmp/pkgs/foo-1.0.tar.gz" = .FileURL := by decide
  have hdrop : ("file:///tmp/pkgs/foo-1.0.tar.gz").drop 7 = "/tmp/pkgs/foo-1.0.tar.gz" := by
    decide
  have hnd : isDirFS fs "/tmp/pkgs/foo-1.0.tar.gz" = false := by
    simp [isDirFS, hsrc]
  have hbase : filepathBase "file:///tmp/pkgs/foo-1.0.tar.gz" = "foo-1.0.tar.gz" := by decide
  have hjoin : filepathJoin (filepathJoin "/scratch/build" "foo") "foo-1.0.tar.gz" =
      "/scratch/build/foo/foo-1.0.tar.gz" := by decide
  have hdir : filepathDir "/scratch/build/foo/foo-1.0.tar.gz" = "/scratch/build/foo" := by
    decide
  simp [part000.Get, part000.copyTarball, copyFile, hdet, hdrop, hnd, hbase, hjoin, hdir,
    hsrc, hdst]

/-- Witness for C2 at a concrete filesystem holding the source tarball and the
destination directory. -/
theorem part000_get_file_tarball_scenario_witness :
    part000.Get (fun _ _ => none) (fun _ => none)
        [("/tmp/pkgs/foo-1.0.tar.gz", .file "DATA"), ("/scratch/build/foo", .dir),
         ("/scratch/build", .dir)]
        ⟨"a", "b", "/scr", "/inst", "/scratch/build", ["E"]⟩
        ⟨"foo", "file:///tmp/pkgs/foo-1.0.tar.gz", "", "make install"⟩ =
      ⟨setEntry [("/tmp/pkgs/foo-1.0.tar.gz", .file "DATA"), ("/scratch/build/foo", .dir),
          ("/scratch/build", .dir)] "/scratch/build/foo/foo-1.0.tar.gz" (.file "DATA"), [],
       ⟨"/scratch/build/foo/foo-1.0.tar.gz", "b", "/scr", "/inst", "/scratch/build", ["E"]⟩,
       ⟨"foo", "file:///tmp/pkgs/foo-1.0.tar.gz", "foo-1.0.tar.gz", "make install"⟩, none⟩ :=
  part000_get_file_tarball_scenario (fun _ _ => none) (fun _ => none)
    [("/tmp/pkgs/foo-1.0.tar.gz", .file "DATA"), ("/scratch/build/foo", .dir),
     ("/scratch/build", .dir)]
    "a" "b" "/scr" "/inst" ["E"] "make install" "DATA" (by decide) (by decide)

/-- Claim C3: for Name `bar` and git URL `https://example.com/org/bar.git`
with `BuildDir = /scratch/build`, `Get` invokes `git clone` (and not `pull`)
when no checkout exists at `/scratch/build/bar/bar`, invokes `git pull` (and
not `clone`) when it does, and on success sets both `SrcPath` and `SrcDir` to
`/scratch/build/bar/bar`. -/
theorem part000_get_git_clone_pull (runner : Cmd → FS → Option FS)
    (sysLook : String → Option String) (fs fsc fsp : FS)
    (sp sd scr inst : String) (ev : List String) (tb ic gitBin : String)
    (hgit : sysLook "git" = some gitBin)
    (hdir : pathExists fs "/scratch/build/bar" = true)
    (hclone : runner ⟨gitBin, ["clone", "https://example.com/org/bar.git"],
        "/scratch/build/bar"⟩ fs = some fsc)
    (hpull : runner ⟨gitBin, ["pull"], "/scratch/build/bar/bar"⟩ fs = some fsp) :
    (pathExists fs "/scratch/build/bar/bar" = false →
      part000.Get runner sysLook fs ⟨sp, sd, scr, inst, "/scratch/build", ev⟩
          ⟨"bar", "https://example.com/org/bar.git", tb, ic⟩ =
        ⟨fsc, [⟨gitBin, ["clone", "https://example.com/org/bar.git"], "/scratch/build/bar"⟩],
         ⟨"/scratch/build/bar/bar", "/scratch/build/bar/bar", scr, inst, "/scratch/build", ev⟩,
         ⟨"bar", "https://example.com/org/bar.git", tb, ic⟩, none⟩) ∧
    (pathExists fs "/scratch/build/bar/bar" = true →
      part000.Get runner sysLook fs ⟨sp, sd, scr, inst, "/scratch/build", ev⟩
          ⟨"bar", "https://example.com/org/bar.git", tb, ic⟩ =
        ⟨fsp, [⟨gitBin, ["pull"], "/scratch/build/bar/bar"⟩],
         ⟨"/scratch/build/bar/bar", "/scratch/build/bar/bar", scr, inst, "/scratch/build", ev⟩,
         ⟨"bar", "https://example.com/org/bar.git", tb, ic⟩, none⟩) := by
  have hdet : DetectURLType "https://example.com/org/bar.git" = .GitURL := by decide
  have hrepo : replaceFirst (filepathBase "https://example.com/org/bar.git") ".git" "" =
      "bar" := by decide
  have hjoin1 : filepathJoin "/scratch/build" "bar" = "/scratch/build/bar" := by decide
  have hjoin2 : filepathJoin "/scratch/build/bar" "bar" = "/scratch/build/bar/bar" := by decide
  constructor
  · intro hnc
    simp [part000.Get, part000.gitCheckout, hdet, hrepo, hjoin1, hjoin2, hgit, hdir, hnc,
      hclone]
  · intro hcc
    simp [part000.Get, part000.gitCheckout, hdet, hrepo, hjoin1, hjoin2, hgit, hdir, hcc,
      hpull]

/-- Witness for C3 with a concrete runner that records the checkout. -/
theorem part000_get_git_clone_pull_witness :
    ((pathExists [("/scratch/build", FType.dir), ("/scratch/build/bar", FType.dir)]
        "/scratch/build/bar/bar" = false →
      part000.Get (fun _ f => some (("/scratch/build/bar/bar", FType.dir) :: f))
          (fun b => if b = "git" then some "/usr/bin/git" else none)
          [("/scratch/build", FType.dir), ("/scratch/build/bar", FType.dir)]
          ⟨"s", "d", "/scr", "/inst", "/scratch/build", []⟩
          ⟨"bar", "https://example.com/org/bar.git", "t", "i"⟩ =
        ⟨("/scratch/build/bar/bar", FType.dir) ::
            [("/scratch/build", FType.dir), ("/scratch/build/bar", FType.dir)],
         [⟨"/usr/bin/git", ["clone", "https://example.com/org/bar.git"], "/scratch/build/bar"⟩],
         ⟨"/scratch/build/bar/bar", "/scratch/build/bar/bar", "/scr", "/inst",
          "/scratch/build", []⟩,
         ⟨"bar", "https://example.com/org/bar.git", "t", "i"⟩, none⟩) ∧
    (pathExists [("/scratch/build", FType.dir), ("/scratch/build/bar", FType.dir)]
        "/scratch/build/bar/bar" = true →
      part000.Get (fun _ f => some (("/scratch/build/bar/bar", FType.dir) :: f))
          (fun b => if b = "git" then some "/usr/bin/git" else none)
          [("/scratch/build", FType.dir), ("/scratch/build/bar", FType.dir)]
          ⟨"s", "d", "/scr", "/inst", "/scratch/build", []⟩
          ⟨"bar", "https://example.com/org/bar.git", "t", "i"⟩ =
        ⟨("/scratch/build/bar/bar", FType.dir) ::
            [("/scratch/build", FType.dir), ("/scratch/build/bar", FType.dir)],
         [⟨"/usr/bin/git", ["pull"], "/scratch/build/bar/bar"⟩],
         ⟨"/scratch/build/bar/bar", "/scratch/build/bar/bar", "/scr", "/inst",
          "/scratch/build", []⟩,
         ⟨"bar", "https://example.com/org/bar.git", "t", "i"⟩, none⟩)) :=
  part000_get_git_clone_pull (fun _ f => some (("/scratch/build/bar/bar", FType.dir) :: f))
    (fun b => if b = "git" then some "/usr/bin/git" else none)
    [("/scratch/build", FType.dir), ("/scratch/build/bar", FType.dir)]
    (("/scratch/build/bar/bar", FType.dir) ::
      [("/scratch/build", FType.dir), ("/scratch/build/bar", FType.dir)])
    (("/scratch/build/bar/bar", FType.dir) ::
      [("/scratch/build", FType.dir), ("/scratch/build/bar", FType.dir)])
    "s" "d" "/scr" "/inst" [] "t" "i" "/usr/bin/git"
    (by decide) (by decide) rfl rfl

/-- Claim C4: for a package whose URL is empty or unclassifiable, `Get`
returns an error having spawned no process and changed no filesystem entry,
environment field or descriptor field. -/
theorem part000_get_unclassified_frame (runner : Cmd → FS → Option FS)
    (sysLook : String → Option String) (fs : FS) (env : Info) (p : AppInfo)
    (h : p.URL = "" ∨ DetectURLType p.URL = .Unknown) :
    (part000.Get runner sysLook fs env p).error ≠ none ∧
      (part000.Get runner sysLook fs env p).trace = [] ∧
      (part000.Get runner sysLook fs env p).fs = fs ∧
      (part000.Get runner sysLook fs env p).env = env ∧
      (part000.Get runner sysLook fs env p).pkg = p := by
  rcases h with h | h
  · simp [part000.Get, h]
  · by_cases h0 : p.URL = ""
    · simp [part000.Get, h0]
    · simp [part000.Get, h0, h]

/-- Witness for C4 at the spec's unclassifiable URL `ftp://host/file`. -/
theorem part000_get_unclassified_frame_witness :
    ((part000.Get (fun _ _ => none) (fun _ => none) [("/b", .dir)]
        ⟨"s", "d", "c", "i", "/b", ["E"]⟩ ⟨"x", "ftp://host/file", "t", "ic"⟩).error ≠ none ∧
      (part000.Get (fun _ _ => none) (fun _ => none) [("/b", .dir)]
        ⟨"s", "d", "c", "i", "/b", ["E"]⟩ ⟨"x", "ftp://host/file", "t", "ic"⟩).trace = [] ∧
      (part000.Get (fun _ _ => none) (fun _ => none) [("/b", .dir)]
        ⟨"s", "d", "c", "i", "/b", ["E"]⟩ ⟨"x", "ftp://host/file", "t", "ic"⟩).fs = [("/b", .dir)] ∧
      (part000.Get (fun _ _ => none) (fun _ => none) [("/b", .dir)]
        ⟨"s", "d", "c", "i", "/b", ["E"]⟩ ⟨"x", "ftp://host/file", "t", "ic"⟩).env =
          ⟨"s", "d", "c", "i", "/b", ["E"]⟩ ∧
      (part000.Get (fun _ _ => none) (fun _ => none) [("/b", .dir)]
        ⟨"s", "d", "c", "i", "/b", ["E"]⟩ ⟨"x", "ftp://host/file", "t", "ic"⟩).pkg =
          ⟨"x", "ftp://host/file", "t", "ic"⟩) :=
  part000_get_unclassified_frame (fun _ _ => none) (fun _ => none) [("/b", .dir)]
    ⟨"s", "d", "c", "i", "/b", ["E"]⟩ ⟨"x", "ftp://host/file", "t", "ic"⟩ (Or.inr (by decide))

/-- Counterexample to claim C5 as stated: with `SrcPath = /d` an existing
directory but `BuildDir = ""`, `Unpack` fails its sanity check and returns the
invalid-parameter error instead of succeeding. -/
theorem part000_unpack_dir_empty_builddir_cex :
    isDirFS [("/d", FType.dir)] "/d" = true ∧
      (part000.Unpack (fun _ f => some f) (fun _ => none) [("/d", FType.dir)]
          ⟨"/d", "/old", "", "", "", []⟩).error = some "invalid parameter(s)" := by
  constructor
  · decide
  · rfl

/-- Claim C5 (amended): for every environment with non-empty `SrcPath` and
non-empty `BuildDir` whose `SrcPath` denotes an existing directory, `Unpack`
succeeds without spawning any process and without modifying the filesystem,
`SrcDir` or any other field, and calling it twice yields the same final state
as calling it once. -/
theorem part000_unpack_dir_noop_idempotent (runner : Cmd → FS → Option FS)
    (sysLook : String → Option String) (fs : FS) (env : Info)
    (hsp : env.SrcPath ≠ "") (hbd : env.BuildDir ≠ "")
    (hdir : isDirFS fs env.SrcPath = true) :
    part000.Unpack runner sysLook fs env = ⟨fs, [], env, none⟩ ∧
      part000.Unpack runner sysLook (part000.Unpack runner sysLook fs env).fs
          (part000.Unpack runner sysLook fs env).env =
        part000.Unpack runner sysLook fs env := by
  have h1 : part000.Unpack runner sysLook fs env = ⟨fs, [], env, none⟩ := by
    simp [part000.Unpack, hsp, hbd, hdir]
  refine ⟨h1, ?_⟩
  rw [h1]
  exact h1

/-- Witness for the amended C5 at a concrete directory-valued `SrcPath`. -/
theorem part000_unpack_dir_noop_idempotent_witness :
    (part000.Unpack (fun _ f => some f) (fun _ => none) [("/d", FType.dir)]
        ⟨"/d", "/old", "/s", "/i", "/b", []⟩ =
      ⟨[("/d", FType.dir)], [], ⟨"/d", "/old", "/s", "/i", "/b", []⟩, none⟩) ∧
      part000.Unpack (fun _ f => some f) (fun _ => none)
          (part000.Unpack (fun _ f => some f) (fun _ => none) [("/d", FType.dir)]
            ⟨"/d", "/old", "/s", "/i", "/b", []⟩).fs
          (part000.Unpack (fun _ f => some f) (fun _ => none) [("/d", FType.dir)]
            ⟨"/d", "/old", "/s", "/i", "/b", []⟩).env =
        part000.Unpack (fun _ f => some f) (fun _ => none) [("/d", FType.dir)]
          ⟨"/d", "/old", "/s", "/i", "/b", []⟩ :=
  part000_unpack_dir_noop_idempotent (fun _ f => some f) (fun _ => none) [("/d", FType.dir)]
    ⟨"/d", "/old", "/s", "/i", "/b", []⟩ (by decide) (by decide) (by decide)

/-- Claim C6: after a successful extraction of a recognized archive, `Unpack`
inspects the listing of the extraction directory and sets `SrcDir` to the
newly created entry — in the `part_000` variant the archive is kept and the
listing must hold exactly two entries (archive plus the new one), in the
`buildenv.go` variant the archive is deleted and the listing must hold exactly
one entry — and when the listing does not have the expected count, `Unpack`
fails with the inconsistent-directory error and leaves the environment, in
particular `SrcDir`, unchanged. -/
theorem unpack_new_entry_detection (runner : Cmd → FS → Option FS)
    (sysLook : String → Option String) (fs fs1 fs1b : FS)
    (sp sdir scr inst bd : String) (ev : List String) (tarPath fmt targ : String)
    (hsp : sp ≠ "") (hbd : bd ≠ "") (hnd : isDirFS fs sp = false)
    (hfmt : DetectTarballFormat sp = fmt) (hfmtne : fmt ≠ "")
    (harg : GetTarArgs fmt = targ) (hargne : targ ≠ "")
    (htar : sysLook "tar" = some tarPath)
    (hrunA : runner ⟨tarPath, [targ, sp], sdir⟩ fs = some fs1)
    (hrunB : runner ⟨tarPath, [targ, sp], bd⟩ fs = some fs1b) :
    (∀ d, childNames fs1 sdir = [filepathBase sp, d] → d ≠ filepathBase sp →
      part000.Unpack runner sysLook fs ⟨sp, sdir, scr, inst, bd, ev⟩ =
        ⟨fs1, [⟨tarPath, [targ, sp], sdir⟩],
         ⟨sp, filepathJoin sdir d, scr, inst, bd, ev⟩, none⟩) ∧
    ((childNames fs1 sdir).length ≠ 2 →
      (part000.Unpack runner sysLook fs ⟨sp, sdir, scr, inst, bd, ev⟩).error ≠ none ∧
      (part000.Unpack runner sysLook fs ⟨sp, sdir, scr, inst, bd, ev⟩).env =
        ⟨sp, sdir, scr, inst, bd, ev⟩) ∧
    (∀ fs2 d, removeFS fs1b sp = some fs2 → childNames fs2 bd = [d] →
      buildenv.Unpack runner sysLook fs ⟨sp, sdir, scr, inst, bd, ev⟩ =
        ⟨fs2, [⟨tarPath, [targ, sp], bd⟩],
         ⟨sp, filepathJoin bd d, scr, inst, bd, ev⟩, none⟩) ∧
    (∀ fs2, removeFS fs1b sp = some fs2 → (childNames fs2 bd).length ≠ 1 →
      (buildenv.Unpack runner sysLook fs ⟨sp, sdir, scr, inst, bd, ev⟩).error ≠ none ∧
      (buildenv.Unpack runner sysLook fs ⟨sp, sdir, scr, inst, bd, ev⟩).env =
        ⟨sp, sdir, scr, inst, bd, ev⟩) := by
  refine ⟨?_, ?_, ?_, ?_⟩
  · intro d hls hd
    simp [part000.Unpack, hsp, hbd, hnd, hfmt, hfmtne, harg, hargne, htar, hrunA, hls, hd]
  · intro hlen
    simp [part000.Unpack, hsp, hbd, hnd, hfmt, hfmtne, harg, hargne, htar, hrunA, hlen]
  · intro fs2 d hrm hls
    cases hls2 : childNames fs2 bd with
    | nil => rw [hls2] at hls; exact absurd hls (by simp)
    | cons e rest =>
      rw [hls2] at hls
      injection hls with h1 h2
      subst h1
      subst h2
      simp [buildenv.Unpack, hsp, hbd, hnd, hfmt, hfmtne, harg, hargne, htar, hrunB, hrm,
        hls2]
  · intro fs2 hrm hlen
    cases hls2 : childNames fs2 bd with
    | nil =>
      simp [buildenv.Unpack, hsp, hbd, hnd, hfmt, hfmtne, harg, hargne, htar, hrunB, hrm,
        hls2]
    | cons e rest =>
      cases rest with
      | nil => rw [hls2] at hlen; exact absurd hlen (by simp)
      | cons e2 rest2 =>
        simp [buildenv.Unpack, hsp, hbd, hnd, hfmt, hfmtne, harg, hargne, htar, hrunB, hrm,
          hls2]

/-- Witness for C6 with a concrete runner producing the new directory in the
extraction directory of each variant. -/
theorem unpack_new_entry_detection_witness :
    ((∀ d, childNames [("/sd", FType.dir), ("/sd/a.tar.gz", FType.file "T"),
          ("/bd", FType.dir), ("/sd/newdir", FType.dir)] "/sd" =
          [filepathBase "/sd/a.tar.gz", d] → d ≠ filepathBase "/sd/a.tar.gz" →
      part000.Unpack
          (fun c f => if c.dir = "/sd" then
            some (f ++ [("/sd/newdir", FType.dir)]) else some (f ++ [("/bd/newdir", FType.dir)]))
          (fun b => if b = "tar" then some "/bin/tar" else none)
          [("/sd", FType.dir), ("/sd/a.tar.gz", FType.file "T"), ("/bd", FType.dir)]
          ⟨"/sd/a.tar.gz", "/sd", "/scr", "/inst", "/bd", []⟩ =
        ⟨[("/sd", FType.dir), ("/sd/a.tar.gz", FType.file "T"), ("/bd", FType.dir),
          ("/sd/newdir", FType.dir)],
         [⟨"/bin/tar", ["-xzf", "/sd/a.tar.gz"], "/sd"⟩],
         ⟨"/sd/a.tar.gz", filepathJoin "/sd" d, "/scr", "/inst", "/bd", []⟩, none⟩) ∧
    ((childNames [("/sd", FType.dir), ("/sd/a.tar.gz", FType.file "T"),
          ("/bd", FType.dir), ("/sd/newdir", FType.dir)] "/sd").length ≠ 2 →
      (part000.Unpack
          (fun c f => if c.dir = "/sd" then
            some (f ++ [("/sd/newdir", FType.dir)]) else some (f ++ [("/bd/newdir", FType.dir)]))
          (fun b => if b = "tar" then some "/bin/tar" else none)
          [("/sd", FType.dir), ("/sd/a.tar.gz", FType.file "T"), ("/bd", FType.dir)]
          ⟨"/sd/a.tar.gz", "/sd", "/scr", "/inst", "/bd", []⟩).error ≠ none ∧
      (part000.Unpack
          (fun c f => if c.dir = "/sd" then
            some (f ++ [("/sd/newdir", FType.dir)]) else some (f ++ [("/bd/newdir", FType.dir)]))
          (fun b => if b = "tar" then some "/bin/tar" else none)
          [("/sd", FType.dir), ("/sd/a.tar.gz", FType.file "T"), ("/bd", FType.dir)]
          ⟨"/sd/a.tar.gz", "/sd", "/scr", "/inst", "/bd", []⟩).env =
        ⟨"/sd/a.tar.gz", "/sd", "/scr", "/inst", "/bd", []⟩) ∧
    (∀ fs2 d, removeFS [("/sd", FType.dir), ("/sd/a.tar.gz", FType.file "T"),
          ("/bd", FType.dir), ("/bd/newdir", FType.dir)] "/sd/a.tar.gz" = some fs2 →
        childNames fs2 "/bd" = [d] →
      buildenv.Unpack
          (fun c f => if c.dir = "/sd" then
            some (f ++ [("/sd/newdir", FType.dir)]) else some (f ++ [("/bd/newdir", FType.dir)]))
          (fun b => if b = "tar" then some "/bin/tar" else none)
          [("/sd", FType.dir), ("/sd/a.tar.gz", FType.file "T"), ("/bd", FType.dir)]
          ⟨"/sd/a.tar.gz", "/sd", "/scr", "/inst", "/bd", []⟩ =
        ⟨fs2, [⟨"/bin/tar", ["-xzf", "/sd/a.tar.gz"], "/bd"⟩],
         ⟨"/sd/a.tar.gz", filepathJoin "/bd" d, "/scr", "/inst", "/bd", []⟩, none⟩) ∧
    (∀ fs2, removeFS [("/sd", FType.dir), ("/sd/a.tar.gz", FType.file "T"),
          ("/bd", FType.dir), ("/bd/newdir", FType.dir)] "/sd/a.tar.gz" = some fs2 →
        (childNames fs2 "/bd").length ≠ 1 →
      (buildenv.Unpack
          (fun c f => if c.dir = "/sd" then
            some (f ++ [("/sd/newdir", FType.dir)]) else some (f ++ [("/bd/newdir", FType.dir)]))
          (fun b => if b = "tar" then some "/bin/tar" else none)
          [("/sd", FType.dir), ("/sd/a.tar.gz", FType.file "T"), ("/bd", FType.dir)]
          ⟨"/sd/a.tar.gz", "/sd", "/scr", "/inst", "/bd", []⟩).error ≠ none ∧
      (buildenv.Unpack
          (fun c f => if c.dir = "/sd" then
            some (f ++ [("/sd/newdir", FType.dir)]) else some (f ++ [("/bd/newdir", FType.dir)]))
          (fun b => if b = "tar" then some "/bin/tar" else none)
          [("/sd", FType.dir), ("/sd/a.tar.gz", FType.file "T"), ("/bd", FType.dir)]
          ⟨"/sd/a.tar.gz", "/sd", "/scr", "/inst", "/bd", []⟩).env =
        ⟨"/sd/a.tar.gz", "/sd", "/scr", "/inst", "/bd", []⟩)) :=
  unpack_new_entry_detection
    (fun c f => if c.dir = "/sd" then
      some (f ++ [("/sd/newdir", FType.dir)]) else some (f ++ [("/bd/newdir", FType.dir)]))
    (fun b => if b = "tar" then some "/bin/tar" else none)
    [("/sd", FType.dir), ("/sd/a.tar.gz", FType.file "T"), ("/bd", FType.dir)]
    [("/sd", FType.dir), ("/sd/a.tar.gz", FType.file "T"), ("/bd", FType.dir),
     ("/sd/newdir", FType.dir)]
    [("/sd", FType.dir), ("/sd/a.tar.gz", FType.file "T"), ("/bd", FType.dir),
     ("/bd/newdir", FType.dir)]
    "/sd/a.tar.gz" "/sd" "/scr" "/inst" "/bd" [] "/bin/tar" "gz" "-xzf"
    (by decide) (by decide) (by decide) (by decide) (by decide) (by decide) (by decide)
    rfl rfl rfl

/-- Claim C7: `Init` is idempotent — after a successful call the three
directories exist, the environment fields are untouched, and a second call
succeeds, creates nothing (the filesystem is unchanged), and leaves the
fields identical. -/
theorem init_idempotent (fs : FS) (env : Info) (h : (Init fs env).error = none) :
    pathExists (Init fs env).fs env.ScratchDir = true ∧
      pathExists (Init fs env).fs env.BuildDir = true ∧
      pathExists (Init fs env).fs env.InstallDir = true ∧
      (Init fs env).env = env ∧ (Init fs env).trace = [] ∧
      Init (Init fs env).fs env = ⟨(Init fs env).fs, [], env, none⟩ := by
  unfold Init at h ⊢
  cases h1 : initStep fs env.ScratchDir "failed to create scratch directory " with
  | error m => rw [h1] at h; simp at h
  | ok fs1 =>
    rw [h1] at h
    dsimp only at h ⊢
    cases h2 : initStep fs1 env.BuildDir "failed to create build directory " with
    | error m => rw [h2] at h; simp at h
    | ok fs2 =>
      rw [h2] at h
      dsimp only at h ⊢
      cases h3 : initStep fs2 env.InstallDir "failed to create build directory " with
      | error m => rw [h3] at h; simp at h
      | ok fs3 =>
        rw [h3] at h
        dsimp only at h ⊢
        obtain ⟨e1, m1⟩ := initStep_ok _ _ _ _ h1
        obtain ⟨e2, m2⟩ := initStep_ok _ _ _ _ h2
        obtain ⟨e3, m3⟩ := initStep_ok _ _ _ _ h3
        have s1 : pathExists fs3 env.ScratchDir = true := m3 _ (m2 _ e1)
        have s2 : pathExists fs3 env.BuildDir = true := m3 _ e2
        refine ⟨s1, s2, e3, rfl, rfl, ?_⟩
        simp only [initStep_exists_ok _ _ _ s1, initStep_exists_ok _ _ _ s2,
          initStep_exists_ok _ _ _ e3]

/-- Witness for C7 starting from the empty filesystem. -/
theorem init_idempotent_witness :
    (Init [] ⟨"", "", "/s", "/i", "/b", []⟩).error = none ∧
      (pathExists (Init [] ⟨"", "", "/s", "/i", "/b", []⟩).fs "/s" = true ∧
        pathExists (Init [] ⟨"", "", "/s", "/i", "/b", []⟩).fs "/b" = true ∧
        pathExists (Init [] ⟨"", "", "/s", "/i", "/b", []⟩).fs "/i" = true ∧
        (Init [] ⟨"", "", "/s", "/i", "/b", []⟩).env = ⟨"", "", "/s", "/i", "/b", []⟩ ∧
        (Init [] ⟨"", "", "/s", "/i", "/b", []⟩).trace = [] ∧
        Init (Init [] ⟨"", "", "/s", "/i", "/b", []⟩).fs ⟨"", "", "/s", "/i", "/b", []⟩ =
          ⟨(Init [] ⟨"", "", "/s", "/i", "/b", []⟩).fs, [], ⟨"", "", "/s", "/i", "/b", []⟩, none⟩) :=
  ⟨by decide, init_idempotent [] ⟨"", "", "/s", "/i", "/b", []⟩ (by decide)⟩

/-- Claim C8: `IsInstalled` is a pure boolean probe — for every filesystem,
environment and package it leaves every environment field exactly as it was
(the embedding returns the receiver, which the method never assigns), and a
URL-classification failure yields `false` rather than an error. -/
theorem isInstalled_pure_frame (fs : FS) (env : Info) (p : AppInfo) :
    (IsInstalled fs env p).1 = env ∧
      (DetectURLType p.URL = .Unknown → (IsInstalled fs env p).2 = false) := by
  unfold IsInstalled
  cases h : DetectURLType p.URL <;> simp [h]

/-- Witness for C8 at a concrete environment and an unclassifiable URL. -/
theorem isInstalled_pure_frame_witness :
    (IsInstalled [] ⟨"a", "b", "c", "d", "e", ["f"]⟩ ⟨"n", "ftp://host/file", "", ""⟩).1 =
        ⟨"a", "b", "c", "d", "e", ["f"]⟩ ∧
      (DetectURLType "ftp://host/file" = .Unknown →
        (IsInstalled [] ⟨"a", "b", "c", "d", "e", ["f"]⟩ ⟨"n", "ftp://host/file", "", ""⟩).2 = false) :=
  isInstalled_pure_frame [] ⟨"a", "b", "c", "d", "e", ["f"]⟩ ⟨"n", "ftp://host/file", "", ""⟩

/-- Claim C9: `Install` with an empty install command succeeds, spawns zero
external processes (empty trace) and changes neither the filesystem, the
environment nor the descriptor. -/
theorem install_empty_cmd_noop (runner : Cmd → FS → Option FS) (fs : FS) (env : Info)
    (p : AppInfo) (h : p.InstallCmd = "") :
    Install runner fs env p = some ⟨fs, [], env, p, none⟩ := by
  simp [Install, h]

/-- Witness for C9 at a concrete descriptor with an empty install command. -/
theorem install_empty_cmd_noop_witness :
    Install (fun _ _ => none) [] ⟨"", "", "", "", "", []⟩ ⟨"n", "u", "", ""⟩ =
      some ⟨[], [], ⟨"", "", "", "", "", []⟩, ⟨"n", "u", "", ""⟩, none⟩ :=
  install_empty_cmd_noop (fun _ _ => none) [] ⟨"", "", "", "", "", []⟩ ⟨"n", "u", "", ""⟩ rfl

/-- Counterexample to claim C10 as stated: on the `Env` entry `"PATH"` (no
`=` separator), Go's `Split` yields the one-element slice, the first component
equals `PATH`, and reading the second component `envEntry[1]` is out of bounds
(a runtime panic, modelled as `none`), so `lookPath` does not return a
string. -/
theorem lookPath_malformed_path_entry_cex :
    lookPath [("/usr/bin/ls", .file "x")] ⟨"", "", "", "", "", ["PATH"]⟩ "ls" = none := by
  decide

/-- Claim C10 (amended): `lookPath` is total — returns a string with no
out-of-bounds access — for every `Env` list in which each entry whose first
`=`-component equals `PATH` actually contains an `=` separator (the second
split component exists).  On an entry equal to `PATH` with no `=`, the read
of the second component is out of bounds. -/
theorem lookPath_total_wellformed_env (fs : FS) (env : Info) (bin : String)
    (h : ∀ e ∈ env.Env,
      (stringsSplit e "=").head? = some "PATH" → 2 ≤ (stringsSplit e "=").length) :
    (lookPath fs env bin).isSome = true :=
  lookPathLoop_isSome fs bin env.Env h

/-- Witness for the amended C10 on a well-formed environment list. -/
theorem lookPath_total_wellformed_env_witness :
    (∀ e ∈ (["PATH=/usr/bin:/bin", "HOME=/root", "TERM"] : List String),
      (stringsSplit e "=").head? = some "PATH" → 2 ≤ (stringsSplit e "=").length) ∧
    (lookPath [] ⟨"", "", "", "", "", ["PATH=/usr/bin:/bin", "HOME=/root", "TERM"]⟩ "ls").isSome
      = true :=
  ⟨by decide,
   lookPath_total_wellformed_env [] ⟨"", "", "", "", "", ["PATH=/usr/bin:/bin", "HOME=/root", "TERM"]⟩
     "ls" (by decide)⟩
